import Mathlib

/-!
# ConnectaBLE.JS node bindings: session and state layer

A shallow embedding of `src/bindings/node/api.js` (client configuration
storage, ATT bearer adapter, connection session, host facade callbacks) and of
`src/bindings/node/nodehci.js` (socket filter construction), followed by the
properties established about them.

JavaScript objects become records of the properties their constructor assigns,
methods become functions that take the receiver and return the new receiver,
a thrown exception is `Except.error`, and calls that leave the file (observer
callbacks, the GAP connection, `GAPADV.parse`) are recorded as effects or taken
as parameters.
-/

namespace Connectable

/-! ## JavaScript runtime fragments -/

/-- The exceptions the JavaScript runtime raises in the modelled code. -/
inductive JSError
  | typeError
  | referenceError
  | rangeError
  deriving DecidableEq, Repr

/-- The value a JavaScript call evaluates to, as far as the modelled code
distinguishes: `undefined` (a function body that ends without `return`) or a
number. -/
inductive JSValue
  | undefined
  | number (n : Nat)
  deriving DecidableEq, Repr

/-- A JavaScript `Map` with string keys, as the list of its entries in
insertion order. -/
abbrev JSMap (V : Type) := List (String × V)

namespace JSMap

/-- `Map.prototype.get`: the value of the entry with key `k`, if any. -/
def get {V : Type} : JSMap V → String → Option V
  | [], _ => none
  | (k', v) :: rest, k => if k' = k then some v else get rest k

/-- `Map.prototype.has`. -/
def has {V : Type} (m : JSMap V) (k : String) : Bool :=
  (get m k).isSome

/-- `Map.prototype.set`: an existing entry keeps its position and takes the new
value, a new key is appended. -/
def set {V : Type} : JSMap V → String → V → JSMap V
  | [], k, v => [(k, v)]
  | (k', v') :: rest, k, v =>
    if k' = k then (k, v) :: rest else (k', v') :: set rest k v

/-- `Map.prototype.delete`: the entry with key `k` is removed. -/
def delete {V : Type} (m : JSMap V) (k : String) : JSMap V :=
  m.filter (fun e => decide (e.1 ≠ k))

end JSMap

/-! ## `api.js`: data reaching the storage from the protocol engine -/

/-- The parts of a `BluetoothAddress` the bindings use: the results of
`toString()`, `typeString` and `isIdentity()`. -/
structure BluetoothAddress where
  toString : String
  typeString : String
  isIdentity : Bool
  deriving DecidableEq, Repr

/-- The `securityInfo` record of a GAP connection, reduced to the `bonding`
flag the bindings test. -/
structure SecurityInfo where
  bonding : Bool
  deriving DecidableEq, Repr

/-- The parts of a GAP connection the bindings read. `securityInfo` is `none`
when the property is `null` or `undefined`. -/
structure GapConnection where
  address : BluetoothAddress
  securityInfo : Option SecurityInfo
  deriving DecidableEq, Repr

/-- A characteristic, reduced to `characteristic.uuid.toString()`. -/
structure Characteristic where
  uuid : String
  deriving DecidableEq, Repr

/-- The key computed in `_getClientConfigurations` and
`_removeClientConfigurations`:
`address.toString() + "/" + address.typeString`. -/
def identityKey (connection : GapConnection) : String :=
  connection.address.toString ++ "/" ++ connection.address.typeString

/-! ## `api.js`: `MemoryClientConfigurationStorage` -/

/-- The storage object: its constructor assigns the single property
`_ccConfigs`, a `Map` from identity key to a `Map` from UUID string to value. -/
structure MemoryClientConfigurationStorage where
  _ccConfigs : JSMap (JSMap Nat)
  deriving DecidableEq, Repr

namespace MemoryClientConfigurationStorage

/-- The constructor: `this._ccConfigs = new Map()`. -/
def new : MemoryClientConfigurationStorage :=
  { _ccConfigs := [] }

/-- The property `this._ble` of a storage object. No code assigns it (the
constructor sets `_ccConfigs` only, and `BLE` keeps the storage in its own
`_ccStorage` without a back-reference), so the lookup yields `undefined`,
here `none`. -/
def _ble (_self : MemoryClientConfigurationStorage) :
    Option MemoryClientConfigurationStorage :=
  none

/-- `_getClientConfigurations(connection)`: the entry set of the connection's
key, created empty when absent. Returns the entry set and the storage after
the call. -/
def _getClientConfigurations (self : MemoryClientConfigurationStorage)
    (connection : GapConnection) : JSMap Nat × MemoryClientConfigurationStorage :=
  let key := identityKey connection
  let self1 : MemoryClientConfigurationStorage :=
    if !(JSMap.has self._ccConfigs key) then
      { _ccConfigs := JSMap.set self._ccConfigs key [] }
    else self
  ((JSMap.get self1._ccConfigs key).getD [], self1)

/-- `readClientConfiguration(characteristic, connection)`: the value read and
the storage after the call (the entry set of the connection may have been
created). -/
def readClientConfiguration (self : MemoryClientConfigurationStorage)
    (characteristic : Characteristic) (connection : GapConnection) :
    Except JSError (Nat × MemoryClientConfigurationStorage) :=
  let uuid := characteristic.uuid
  let (configs, self1) := self._getClientConfigurations connection
  if !(JSMap.has configs uuid) then
    pure (0x0000, self1)
  else
    pure ((JSMap.get configs uuid).getD 0, self1)

/-- `writeClientConfiguration(characteristic, connection, value)`: the entry
set is fetched through `this._ble._getClientConfigurations(connection)`; with
`this._ble` undefined the member access throws a `TypeError`. The second branch
is what lines 83-84 do on an object that has the method: `configs.set(uuid,
value)` mutates the entry set held in `_ccConfigs` in place. -/
def writeClientConfiguration (self : MemoryClientConfigurationStorage)
    (characteristic : Characteristic) (connection : GapConnection) (value : Nat) :
    Except JSError MemoryClientConfigurationStorage :=
  let uuid := characteristic.uuid
  match self._ble with
  | none => throw JSError.typeError
  | some target =>
    let (configs, target1) := target._getClientConfigurations connection
    pure { _ccConfigs :=
      JSMap.set target1._ccConfigs (identityKey connection) (JSMap.set configs uuid value) }

/-- `_removeClientConfigurations(connection)`: keeps everything when the
connection is bonded and its address is the identity address, deletes the
entry set of the connection's key otherwise. -/
def _removeClientConfigurations (self : MemoryClientConfigurationStorage)
    (connection : GapConnection) : MemoryClientConfigurationStorage :=
  let address := connection.address
  let key := identityKey connection
  if (match connection.securityInfo with
      | none => false
      | some info => info.bonding && address.isIdentity) then
    self
  else
    { _ccConfigs := JSMap.delete self._ccConfigs key }

/-- The value stored for `(key, uuid)`, if any: what `_ccConfigs` holds, without
the entry-set creation a read performs. -/
def stored (self : MemoryClientConfigurationStorage) (key uuid : String) : Option Nat :=
  match JSMap.get self._ccConfigs key with
  | none => none
  | some configs => JSMap.get configs uuid

end MemoryClientConfigurationStorage

/-! ## `api.js`: `BLE`, the host facade -/

/-- A JavaScript function registered as an event handler, by identity. -/
abbrev Callback := Nat

/-- A value handed through to a callee unchanged (a reason code, a parameter
object, a passkey), by identity. -/
abbrev JSArg := Nat

/-- An advertising or scan-response payload of a discovered-device record:
the bytes received, or the structure `GAPADV.parse` produces. -/
inductive AdvData
  | wire (bytes : List Nat)
  | structured (fields : List (Nat × List Nat))
  deriving DecidableEq, Repr

/-- The discovered-device record the GAP layer passes to `gapDiscovered`.
`scanResponse` is `none` when the record has no own property of that name;
`directed` is the truthiness of `device.directed`. -/
structure Device where
  advertising : AdvData
  scanResponse : Option AdvData
  directed : Bool
  deriving DecidableEq, Repr

/-- The facade object, with the properties of the constructor that the
modelled methods touch (`_gap`, `_transport`, `_server` and `_bondingStorage`
belong to the protocol engine). A handler slot is `none` when it holds
`null`. -/
structure BLE where
  _ccStorage : MemoryClientConfigurationStorage
  _ready : Bool
  _onReady : Option Callback
  _onConnected : Option Callback
  _onDiscovered : Option Callback
  _onPrivacyEnabled : Option Callback
  deriving DecidableEq, Repr

/-- The calls by which the facade leaves the file. -/
inductive FacadeEffect
  | setStaticAddress
  | onReady (cb : Callback)
  | onDiscovered (cb : Callback) (device : Device)
  | onPrivacyEnabled (cb : Callback) (privateAddress : JSArg)
  deriving DecidableEq, Repr

/-- The promise `p` that `gapReady` registers `gapReadyThen` on. -/
inductive ReadyPromise
  /-- The promise returned by `this._gap.setStaticAddress(...)`. -/
  | staticAddress
  /-- `Promise.resolve(null)`. -/
  | resolved
  deriving DecidableEq, Repr

namespace BLE

/-- The constructor of `BLE`. -/
def new : BLE :=
  { _ccStorage := MemoryClientConfigurationStorage.new
    _ready := false
    _onReady := none
    _onConnected := none
    _onDiscovered := none
    _onPrivacyEnabled := none }

/-- `isReady()`. -/
def isReady (self : BLE) : Bool :=
  self._ready

/-- The function passed to `p.then` in `gapReady`: sets `_ready`, then calls
the ready handler when one is registered. -/
def gapReadyThen (self : BLE) : BLE × List FacadeEffect :=
  let self1 := { self with _ready := true }
  match self1._onReady with
  | some cb => (self1, [FacadeEffect.onReady cb])
  | none => (self1, [])

/-- `gapReady()` up to the registration of `gapReadyThen`: which promise the
function is registered on, and the calls made. The flag is
`this._gap.hci.publicAddress.isValid()`. -/
def gapReady (_self : BLE) (publicAddressValid : Bool) : ReadyPromise × List FacadeEffect :=
  if !publicAddressValid then
    (ReadyPromise.staticAddress, [FacadeEffect.setStaticAddress])
  else
    (ReadyPromise.resolved, [])

/-- `gapDiscovered(device)`, with `GAPADV.parse` as the parameter `parse`: the
calls made, in order. The facade itself is not modified. -/
def gapDiscovered (parse : AdvData → AdvData) (self : BLE) (device : Device) :
    List FacadeEffect :=
  match self._onDiscovered with
  | some cb =>
    let device1 : Device :=
      match device.scanResponse with
      | some sr => { device with scanResponse := some (parse sr) }
      | none =>
        if !device.directed then
          { device with advertising := parse device.advertising }
        else device
    [FacadeEffect.onDiscovered cb device1]
  | none => []

/-- `privacyEnabled(privateAddress)`. -/
def privacyEnabled (self : BLE) (privateAddress : JSArg) : List FacadeEffect :=
  match self._onPrivacyEnabled with
  | some cb => [FacadeEffect.onPrivacyEnabled cb privateAddress]
  | none => []

end BLE

/-! ### `gapReady` and the settling of its promise, as steps

`gapReady` builds a promise `p` and registers `gapReadyThen` on it. With a
valid public address `p` is already resolved and the registered function runs
in a later microtask; otherwise `p` is the promise of `setStaticAddress`, and
the function runs when the protocol engine fulfils it and is dropped when the
engine rejects it. -/

/-- What happens to the facade, one step at a time. -/
inductive FacadeInput
  /-- The setter `onReady = cb`. -/
  | setOnReady (cb : Option Callback)
  /-- The GAP layer calls `gapReady()`; the flag is
  `this._gap.hci.publicAddress.isValid()`. -/
  | gapReady (publicAddressValid : Bool)
  /-- The event loop runs one function registered on a resolved promise. -/
  | microtask
  /-- The protocol engine settles one `setStaticAddress` promise: fulfilled
  (`true`) or rejected (`false`). -/
  | staticAddressSettled (fulfilled : Bool)
  deriving DecidableEq, Repr

/-- The record of what has happened, oldest first. -/
inductive FacadeEvent
  | gapReadyValid
  | staticAddressRequested
  | staticAddressCompleted (fulfilled : Bool)
  | readySet
  | onReadyCalled (cb : Callback)
  deriving DecidableEq, Repr

/-- The facade together with the promise reactions waiting to run and the
record of events. -/
structure FacadeState where
  ble : BLE
  /-- Functions registered on `Promise.resolve(null)`, waiting for their microtask. -/
  resolvedPending : Nat
  /-- Functions registered on a `setStaticAddress` promise not yet settled. -/
  staticPending : Nat
  trace : List FacadeEvent
  deriving DecidableEq, Repr

namespace FacadeState

/-- The state after `new BLE()`. -/
def init : FacadeState :=
  { ble := BLE.new, resolvedPending := 0, staticPending := 0, trace := [] }

/-- Runs `gapReadyThen` on the facade and records what it did. -/
def runThen (s : FacadeState) : FacadeState :=
  let (ble1, effects) := s.ble.gapReadyThen
  { s with
    ble := ble1
    trace := s.trace ++ FacadeEvent.readySet ::
      effects.filterMap (fun e =>
        match e with
        | FacadeEffect.onReady cb => some (FacadeEvent.onReadyCalled cb)
        | _ => none) }

/-- One step of the facade. -/
def step (s : FacadeState) : FacadeInput → FacadeState
  | FacadeInput.setOnReady cb => { s with ble := { s.ble with _onReady := cb } }
  | FacadeInput.gapReady valid =>
    match (s.ble.gapReady valid).1 with
    | ReadyPromise.staticAddress =>
      { s with
        staticPending := s.staticPending + 1
        trace := s.trace ++ [FacadeEvent.staticAddressRequested] }
    | ReadyPromise.resolved =>
      { s with
        resolvedPending := s.resolvedPending + 1
        trace := s.trace ++ [FacadeEvent.gapReadyValid] }
  | FacadeInput.microtask =>
    match s.resolvedPending with
    | 0 => s
    | n + 1 => runThen { s with resolvedPending := n }
  | FacadeInput.staticAddressSettled fulfilled =>
    match s.staticPending with
    | 0 => s
    | n + 1 =>
      let s1 := { s with
        staticPending := n
        trace := s.trace ++ [FacadeEvent.staticAddressCompleted fulfilled] }
      if fulfilled then runThen s1 else s1

/-- The state reached from `s` by a sequence of steps. -/
def run (s : FacadeState) (inputs : List FacadeInput) : FacadeState :=
  inputs.foldl step s

end FacadeState

/-! ## `api.js`: `ATTBearer` -/

/-- The bearer specialisation: the property it adds to the base bearer is the
facade reference `_ble`, through which the storage is reached. -/
structure ATTBearer where
  _ble : BLE
  deriving DecidableEq, Repr

namespace ATTBearer

/-- `readClientConfiguration(characteristic, connection)`: calls the storage
and ends without a `return` statement, so the call evaluates to `undefined`. -/
def readClientConfiguration (self : ATTBearer) (characteristic : Characteristic)
    (connection : GapConnection) : Except JSError (JSValue × ATTBearer) := do
  let (_, storage1) ← self._ble._ccStorage.readClientConfiguration characteristic connection
  pure (JSValue.undefined, { self with _ble := { self._ble with _ccStorage := storage1 } })

/-- `writeClientConfiguration(characteristic, connection, value)`. -/
def writeClientConfiguration (self : ATTBearer) (characteristic : Characteristic)
    (connection : GapConnection) (value : Nat) : Except JSError (JSValue × ATTBearer) := do
  let storage1 ← self._ble._ccStorage.writeClientConfiguration characteristic connection value
  pure (JSValue.undefined, { self with _ble := { self._ble with _ccStorage := storage1 } })

end ATTBearer

/-! ## `api.js`: `BLEConnection`, the connection session -/

/-- The calls by which a session leaves the file: the five methods of the GAP
connection it forwards to, and its five handlers. -/
inductive SessionEffect
  | updateConnectionParameter (parameters l2cap : JSArg)
  | disconnect (reason : JSArg)
  | startAuthentication
  | setSecurityParameter (parameter : JSArg)
  | passkeyEntry (passkey : JSArg)
  | onPasskeyRequested (cb : Callback) (input : JSArg)
  | onAuthenticationCompleted (cb : Callback) (securityChanged : JSArg)
  | onAuthenticationFailed (cb : Callback) (reason : JSArg) (pairing : Bool)
  | onDisconnected (cb : Callback) (reason : JSArg)
  | onUpdated (cb : Callback) (parameters : JSArg)
  deriving DecidableEq, Repr

/-- The session object. `_ble` is the facade as reached through the session's
reference; `_bearer` and `_client` belong to the protocol engine apart from the
bearer's own `_ble`, which is the same facade. -/
structure BLEConnection where
  _ble : BLE
  _gapConn : GapConnection
  _onPasskeyRequested : Option Callback
  _onAuthenticationCompleted : Option Callback
  _onAuthenticationFailed : Option Callback
  _onDisconnected : Option Callback
  _onUpdated : Option Callback
  deriving DecidableEq, Repr

namespace BLEConnection

/-- The constructor of `BLEConnection`. -/
def new (ble : BLE) (gapConnection : GapConnection) : BLEConnection :=
  { _ble := ble
    _gapConn := gapConnection
    _onPasskeyRequested := none
    _onAuthenticationCompleted := none
    _onAuthenticationFailed := none
    _onDisconnected := none
    _onUpdated := none }

/-- `updateConnection(parameters, l2cap)`. -/
def updateConnection (self : BLEConnection) (parameters l2cap : JSArg) :
    Except JSError (BLEConnection × List SessionEffect) :=
  pure (self, [SessionEffect.updateConnectionParameter parameters l2cap])

/-- `disconnect(reason)`. -/
def disconnect (self : BLEConnection) (reason : JSArg) :
    Except JSError (BLEConnection × List SessionEffect) :=
  pure (self, [SessionEffect.disconnect reason])

/-- `startAuthentication()`. -/
def startAuthentication (self : BLEConnection) :
    Except JSError (BLEConnection × List SessionEffect) :=
  pure (self, [SessionEffect.startAuthentication])

/-- `setSecurityParameter(parameter)`. -/
def setSecurityParameter (self : BLEConnection) (parameter : JSArg) :
    Except JSError (BLEConnection × List SessionEffect) :=
  pure (self, [SessionEffect.setSecurityParameter parameter])

/-- `passkeyEntry(passkey)`. -/
def passkeyEntry (self : BLEConnection) (passkey : JSArg) :
    Except JSError (BLEConnection × List SessionEffect) :=
  pure (self, [SessionEffect.passkeyEntry passkey])

/-- GAP callback `passkeyRequested(input)`. -/
def passkeyRequested (self : BLEConnection) (input : JSArg) :
    BLEConnection × List SessionEffect :=
  match self._onPasskeyRequested with
  | some cb => (self, [SessionEffect.onPasskeyRequested cb input])
  | none => (self, [])

/-- GAP callback `encryptionCompleted(securityChanged)`. -/
def encryptionCompleted (self : BLEConnection) (securityChanged : JSArg) :
    BLEConnection × List SessionEffect :=
  match self._onAuthenticationCompleted with
  | some cb => (self, [SessionEffect.onAuthenticationCompleted cb securityChanged])
  | none => (self, [])

/-- GAP callback `pairingFailed(reason)`. -/
def pairingFailed (self : BLEConnection) (reason : JSArg) :
    BLEConnection × List SessionEffect :=
  match self._onAuthenticationFailed with
  | some cb => (self, [SessionEffect.onAuthenticationFailed cb reason true])
  | none => (self, [])

/-- GAP callback `encryptionFailed(reason)`. -/
def encryptionFailed (self : BLEConnection) (reason : JSArg) :
    BLEConnection × List SessionEffect :=
  match self._onAuthenticationFailed with
  | some cb => (self, [SessionEffect.onAuthenticationFailed cb reason false])
  | none => (self, [])

/-- GAP callback `disconnected(reason)`. -/
def disconnected (self : BLEConnection) (reason : JSArg) :
    BLEConnection × List SessionEffect :=
  match self._onDisconnected with
  | some cb => (self, [SessionEffect.onDisconnected cb reason])
  | none => (self, [])

/-- GAP callback `connectionUpdated(parameters)`. -/
def connectionUpdated (self : BLEConnection) (parameters : JSArg) :
    BLEConnection × List SessionEffect :=
  match self._onUpdated with
  | some cb => (self, [SessionEffect.onUpdated cb parameters])
  | none => (self, [])

end BLEConnection

/-! ## `nodehci.js`: the socket transport and its filter -/

/-- JavaScript `a << n` on operands whose result stays below `2 ^ 31`: the
shift count is taken modulo 32 and the result is kept to 32 bits. -/
def shl (a n : Nat) : Nat :=
  (a <<< (n % 32)) % 2 ^ 32

/-- The packet-type tag of HCI commands. -/
def HCI_COMMAND_PKT : Nat := 0x01

/-- The packet-type tag of ACL data. -/
def HCI_ACLDATA_PKT : Nat := 0x02

/-- The packet-type tag of HCI events. -/
def HCI_EVENT_PKT : Nat := 0x04

/-- `(1 << HCI_EVENT_PKT) | (1 << HCI_ACLDATA_PKT)`. -/
def TYPE_MASK : Nat :=
  shl 1 HCI_EVENT_PKT ||| shl 1 HCI_ACLDATA_PKT

/-- `(1 << 0x05) | (1 << 0x08) | (1 << 0x0E) | (1 << 0x0F) | (1 << 0x13)`. -/
def EVENT_MASK1 : Nat :=
  shl 1 0x05 ||| shl 1 0x08 ||| shl 1 0x0E ||| shl 1 0x0F ||| shl 1 0x13

/-- `(1 << (0x3E - 32))`. -/
def EVENT_MASK2 : Nat :=
  shl 1 (0x3E - 32)

/-- A Node `Buffer`, as the list of its bytes. -/
abbrev Buffer := List Nat

namespace Buffer

/-- `new Buffer(size)`: `size` bytes whose contents are whatever the memory
held, given by `memory`. -/
def alloc (memory : Nat → Nat) (size : Nat) : Buffer :=
  (List.range size).map (fun i => memory i % 256)

/-- `buf.writeUInt32LE(value, offset)`: four bytes, least significant first;
a `RangeError` when the value or the offset does not fit. -/
def writeUInt32LE (buf : Buffer) (value offset : Nat) : Except JSError Buffer :=
  if value < 2 ^ 32 ∧ offset + 4 ≤ buf.length then
    pure ((((buf.set offset (value % 256)).set (offset + 1) (value / 2 ^ 8 % 256)).set
      (offset + 2) (value / 2 ^ 16 % 256)).set (offset + 3) (value / 2 ^ 24 % 256))
  else
    throw JSError.rangeError

/-- `buf.writeUInt16LE(value, offset)`: two bytes, least significant first;
a `RangeError` when the value or the offset does not fit. -/
def writeUInt16LE (buf : Buffer) (value offset : Nat) : Except JSError Buffer :=
  if value < 2 ^ 16 ∧ offset + 2 ≤ buf.length then
    pure ((buf.set offset (value % 256)).set (offset + 1) (value / 2 ^ 8 % 256))
  else
    throw JSError.rangeError

/-- The 32-bit word stored least significant byte first at `offset`
(`buf.readUInt32LE(offset)`), used to state what a buffer holds. -/
def readUInt32LE (buf : Buffer) (offset : Nat) : Nat :=
  buf.getD offset 0 + 2 ^ 8 * buf.getD (offset + 1) 0 + 2 ^ 16 * buf.getD (offset + 2) 0
    + 2 ^ 24 * buf.getD (offset + 3) 0

end Buffer

/-- The HCI socket of the transport, reduced to the filter installed by
`setFilter` (`none` while no filter has been set). -/
structure BluetoothHciSocket where
  filter : Option Buffer
  deriving DecidableEq, Repr

/-- The socket transport object. -/
structure Transport where
  _socket : BluetoothHciSocket
  deriving DecidableEq, Repr

namespace Transport

/-- Lines 60-65 of `setSocketFilter`: the buffer is allocated and filled. -/
def filterBuffer (memory : Nat → Nat) : Except JSError Buffer := do
  let filter := Buffer.alloc memory 14
  let opcode := 0
  let filter ← Buffer.writeUInt32LE filter TYPE_MASK 0
  let filter ← Buffer.writeUInt32LE filter EVENT_MASK1 4
  let filter ← Buffer.writeUInt32LE filter EVENT_MASK2 8
  let filter ← Buffer.writeUInt16LE filter opcode 12
  pure filter

/-- `setSocketFilter()`. The file declares no `logger`; `loggerInScope` says
whether the global scope provides one when the method runs. Without it the
`logger.debug` call of line 66 throws a `ReferenceError` and the filter that
was built is not installed. -/
def setSocketFilter (loggerInScope : Bool) (memory : Nat → Nat) (self : Transport) :
    Except JSError Transport := do
  let filter ← filterBuffer memory
  if !loggerInScope then
    throw JSError.referenceError
  pure { self with _socket := { filter := some filter } }

end Transport

end Connectable

/-! ## The invariant of the readiness steps -/

namespace Connectable

/-- What holds of every state the readiness steps reach: the flag mirrors the
`readySet` record; every `readySet` comes after a valid-address report or a
fulfilled assignment, every handler call after a `readySet`, every completion
after a request; and a waiting reaction has its origin on record. -/
structure FacadeState.Inv (s : FacadeState) : Prop where
  ready_iff : s.ble._ready = true ↔ FacadeEvent.readySet ∈ s.trace
  cause : ∀ pre e post, s.trace = pre ++ e :: post → e = FacadeEvent.readySet →
    ∃ e' ∈ pre, e' = FacadeEvent.gapReadyValid ∨ e' = FacadeEvent.staticAddressCompleted true
  flag_first : ∀ pre e post, s.trace = pre ++ e :: post →
    (∃ cb, e = FacadeEvent.onReadyCalled cb) → ∃ e' ∈ pre, e' = FacadeEvent.readySet
  requested : ∀ pre e post, s.trace = pre ++ e :: post →
    (∃ f, e = FacadeEvent.staticAddressCompleted f) →
    ∃ e' ∈ pre, e' = FacadeEvent.staticAddressRequested
  static_pending : 0 < s.staticPending → FacadeEvent.staticAddressRequested ∈ s.trace
  resolved_pending : 0 < s.resolvedPending → FacadeEvent.gapReadyValid ∈ s.trace

end Connectable

/-! ## Sample data -/

namespace Connectable

/-- A connection that is not bonded, on a random address. -/
def samplePeer : GapConnection :=
  { address := { toString := "C0:11:22:33:44:55", typeString := "random", isIdentity := false }
    securityInfo := none }

/-- A bonded connection on its identity address. -/
def sampleBondedPeer : GapConnection :=
  { address := { toString := "00:A0:50:01:02:03", typeString := "public", isIdentity := true }
    securityInfo := some { bonding := true } }

/-- The characteristic with UUID string `2A37`. -/
def sampleCharacteristic : Characteristic :=
  { uuid := "2A37" }

/-- A storage holding the value 1 for `samplePeer` and 2 for
`sampleBondedPeer`, both under `2A37`. -/
def sampleStorage : MemoryClientConfigurationStorage :=
  { _ccConfigs :=
      [("C0:11:22:33:44:55/random", [("2A37", 1)]), ("00:A0:50:01:02:03/public", [("2A37", 2)])] }

/-- A session on the unbonded sample peer with a disconnect handler (1) and an
update handler (2) registered. -/
def sampleSession : BLEConnection :=
  { BLEConnection.new BLE.new samplePeer with
    _onDisconnected := some 1
    _onUpdated := some 2 }

/-- A stand-in for `GAPADV.parse`: one structure of type 0xFF holding the
bytes. -/
def sampleParse : AdvData → AdvData
  | AdvData.wire bytes => AdvData.structured [(0xFF, bytes)]
  | AdvData.structured fields => AdvData.structured fields

/-- A directed record that carries a scan-response payload. -/
def sampleDirectedDevice : Device :=
  { advertising := AdvData.wire [2, 1, 6]
    scanResponse := some (AdvData.wire [3, 9, 65, 66])
    directed := true }

end Connectable

/-! ## Properties -/

namespace Connectable

/-! ### `Map` operations -/

theorem JSMap.get_set_self {V : Type} (m : JSMap V) (k : String) (v : V) :
    JSMap.get (JSMap.set m k v) k = some v := by
  induction m with
  | nil => simp [JSMap.set, JSMap.get]
  | cons e rest ih =>
    obtain ⟨k', v'⟩ := e
    by_cases h : k' = k
    · simp [JSMap.set, JSMap.get, h]
    · simp [JSMap.set, JSMap.get, h, ih]

theorem JSMap.get_set_ne {V : Type} (m : JSMap V) (k k' : String) (v : V) (h : k' ≠ k) :
    JSMap.get (JSMap.set m k v) k' = JSMap.get m k' := by
  induction m with
  | nil => simp [JSMap.set, JSMap.get, Ne.symm h]
  | cons e rest ih =>
    obtain ⟨k0, v0⟩ := e
    by_cases h0 : k0 = k
    · subst h0
      simp [JSMap.set, JSMap.get, Ne.symm h]
    · by_cases h1 : k0 = k'
      · subst h1
        simp [JSMap.set, JSMap.get, h0]
      · simp [JSMap.set, JSMap.get, h0, h1, ih]

theorem JSMap.get_delete_self {V : Type} (m : JSMap V) (k : String) :
    JSMap.get (JSMap.delete m k) k = none := by
  induction m with
  | nil => simp [JSMap.delete, JSMap.get]
  | cons e rest ih =>
    obtain ⟨k', v'⟩ := e
    by_cases h : k' = k
    · simpa [JSMap.delete, List.filter, h] using ih
    · simpa [JSMap.delete, List.filter, JSMap.get, h] using ih

theorem JSMap.get_delete_ne {V : Type} (m : JSMap V) (k k' : String) (h : k' ≠ k) :
    JSMap.get (JSMap.delete m k) k' = JSMap.get m k' := by
  induction m with
  | nil => simp [JSMap.delete, JSMap.get]
  | cons e rest ih =>
    obtain ⟨k0, v0⟩ := e
    by_cases h0 : k0 = k
    · subst h0
      simpa [JSMap.delete, List.filter, JSMap.get, Ne.symm h] using ih
    · by_cases h1 : k0 = k'
      · subst h1
        simp [JSMap.delete, List.filter, JSMap.get, h0]
      · simpa [JSMap.delete, List.filter, JSMap.get, h0, h1] using ih

/-! ### The client configuration storage -/

namespace MemoryClientConfigurationStorage

/-- The entry set `_getClientConfigurations` returns: the one held for the key,
or a new empty one. -/
theorem getClientConfigurations_fst (self : MemoryClientConfigurationStorage)
    (connection : GapConnection) :
    (self._getClientConfigurations connection).1 =
      (JSMap.get self._ccConfigs (identityKey connection)).getD [] := by
  unfold _getClientConfigurations
  cases h : JSMap.get self._ccConfigs (identityKey connection) with
  | none => simp [JSMap.has, h, JSMap.get_set_self]
  | some configs => simp [JSMap.has, h]

/-- What a read returns in terms of the stored value. -/
theorem read_eq (self : MemoryClientConfigurationStorage)
    (characteristic : Characteristic) (connection : GapConnection) :
    self.readClientConfiguration characteristic connection =
      Except.ok ((self.stored (identityKey connection) characteristic.uuid).getD 0,
        (self._getClientConfigurations connection).2) := by
  have h1 := getClientConfigurations_fst self connection
  unfold readClientConfiguration stored
  rcases hg : self._getClientConfigurations connection with ⟨configs, self1⟩
  rw [hg] at h1
  simp only at h1
  subst h1
  cases hk : JSMap.get self._ccConfigs (identityKey connection) with
  | none => simp [JSMap.has, JSMap.get, pure, Except.pure]
  | some configs =>
    cases hu : JSMap.get configs characteristic.uuid with
    | none => simp [JSMap.has, hu, pure, Except.pure]
    | some v => simp [JSMap.has, hu, pure, Except.pure]

end MemoryClientConfigurationStorage

/-- C1 (as the code behaves): `writeClientConfiguration` throws a `TypeError`
in every storage state and for every characteristic, connection and value, so
nothing is ever stored and no value can be read back. -/
theorem C1_write_throws (self : MemoryClientConfigurationStorage)
    (characteristic : Characteristic) (connection : GapConnection) (value : Nat) :
    self.writeClientConfiguration characteristic connection value =
      Except.error JSError.typeError := by
  rfl

/-- C2: a read never fails; it returns 0x0000 when no value is stored for the
connection's identity key and the characteristic's UUID (in particular when
the storage has no entry set for the key), and the stored value otherwise. -/
theorem C2_read_default_or_stored (self : MemoryClientConfigurationStorage)
    (characteristic : Characteristic) (connection : GapConnection) :
    (self.stored (identityKey connection) characteristic.uuid = none →
      self.readClientConfiguration characteristic connection =
        Except.ok (0x0000, (self._getClientConfigurations connection).2)) ∧
    (∀ v, self.stored (identityKey connection) characteristic.uuid = some v →
      self.readClientConfiguration characteristic connection =
        Except.ok (v, (self._getClientConfigurations connection).2)) ∧
    (JSMap.get self._ccConfigs (identityKey connection) = none →
      self.stored (identityKey connection) characteristic.uuid = none) := by
  refine ⟨fun h => ?_, fun v h => ?_, fun h => ?_⟩
  · rw [MemoryClientConfigurationStorage.read_eq, h]; rfl
  · rw [MemoryClientConfigurationStorage.read_eq, h]; rfl
  · simp [MemoryClientConfigurationStorage.stored, h]

/-- C2 at concrete inputs: a storage that has never seen the identity reads
0, and the sample storage reads the stored 1. -/
theorem C2_read_default_or_stored_witness :
    (MemoryClientConfigurationStorage.new.readClientConfiguration sampleCharacteristic samplePeer =
      Except.ok (0, { _ccConfigs := [("C0:11:22:33:44:55/random", [])] })) ∧
    (sampleStorage.readClientConfiguration sampleCharacteristic samplePeer =
      Except.ok (1, sampleStorage)) :=
  ⟨(C2_read_default_or_stored MemoryClientConfigurationStorage.new sampleCharacteristic
      samplePeer).1 (by decide),
   (C2_read_default_or_stored sampleStorage sampleCharacteristic samplePeer).2.1 1 (by decide)⟩

/-- C3: `_removeClientConfigurations` returns the storage unchanged when the
connection has a `securityInfo` with `bonding` set and its address is the
identity address; in every other case the entry set of the connection's key is
gone, so every read under that key returns 0x0000; in both cases the entry set
of every other key is what it was. -/
theorem C3_remove_keeps_bonded_identity_only (self : MemoryClientConfigurationStorage)
    (connection : GapConnection) :
    (((∃ info, connection.securityInfo = some info ∧ info.bonding = true) ∧
        connection.address.isIdentity = true) →
      self._removeClientConfigurations connection = self) ∧
    (¬ ((∃ info, connection.securityInfo = some info ∧ info.bonding = true) ∧
        connection.address.isIdentity = true) →
      JSMap.get (self._removeClientConfigurations connection)._ccConfigs
          (identityKey connection) = none ∧
      ∀ (characteristic : Characteristic) (reader : GapConnection),
        identityKey reader = identityKey connection →
        ∃ after, (self._removeClientConfigurations connection).readClientConfiguration
          characteristic reader = Except.ok (0x0000, after)) ∧
    (∀ key, key ≠ identityKey connection →
      JSMap.get (self._removeClientConfigurations connection)._ccConfigs key =
        JSMap.get self._ccConfigs key) := by
  have hcond : (match connection.securityInfo with
      | none => false
      | some info => info.bonding && connection.address.isIdentity) = true ↔
      ((∃ info, connection.securityInfo = some info ∧ info.bonding = true) ∧
        connection.address.isIdentity = true) := by
    cases connection.securityInfo with
    | none => simp
    | some info => simp
  refine ⟨fun h => ?_, fun h => ?_, fun key hkey => ?_⟩
  · show (if _ then self else _) = _
    rw [if_pos (hcond.mpr h)]
  · have hdel : self._removeClientConfigurations connection =
        { _ccConfigs := JSMap.delete self._ccConfigs (identityKey connection) } := by
      have hf : ¬ ((match connection.securityInfo with
          | none => false
          | some info => info.bonding && connection.address.isIdentity) = true) :=
        fun hc => h (hcond.mp hc)
      show (if _ then self else _) = _
      rw [if_neg hf]
    have hnone : JSMap.get (self._removeClientConfigurations connection)._ccConfigs
        (identityKey connection) = none := by
      rw [hdel]; exact JSMap.get_delete_self _ _
    refine ⟨hnone, fun characteristic reader hreader =>
      ⟨((self._removeClientConfigurations connection)._getClientConfigurations reader).2, ?_⟩⟩
    rw [MemoryClientConfigurationStorage.read_eq]
    simp [MemoryClientConfigurationStorage.stored, hreader, hnone]
  · show JSMap.get (if _ then self else _)._ccConfigs key = _
    split
    · rfl
    · exact JSMap.get_delete_ne _ _ _ hkey

/-- C3 at concrete inputs: the bonded identity peer keeps its entries, the
unbonded peer loses them and reads 0, and the other peer's entry set stays. -/
theorem C3_remove_keeps_bonded_identity_only_witness :
    sampleStorage._removeClientConfigurations sampleBondedPeer = sampleStorage ∧
    (∃ after, (sampleStorage._removeClientConfigurations samplePeer).readClientConfiguration
      sampleCharacteristic samplePeer = Except.ok (0, after)) ∧
    JSMap.get (sampleStorage._removeClientConfigurations samplePeer)._ccConfigs
        "00:A0:50:01:02:03/public" =
      JSMap.get sampleStorage._ccConfigs "00:A0:50:01:02:03/public" :=
  ⟨(C3_remove_keeps_bonded_identity_only sampleStorage sampleBondedPeer).1
      ⟨⟨{ bonding := true }, rfl, rfl⟩, rfl⟩,
   ((C3_remove_keeps_bonded_identity_only sampleStorage samplePeer).2.1
      (by decide)).2 sampleCharacteristic samplePeer rfl,
   (C3_remove_keeps_bonded_identity_only sampleStorage samplePeer).2.2
      "00:A0:50:01:02:03/public" (by decide)⟩

/-- C4 (as the code behaves): the `disconnected` handler returns the session,
and with it the facade's storage, unchanged, whatever the bonding state and
whether or not a handler is registered. On the sample storage the unbonded
peer's value 1 is still read after the handler has run, where the storage's
`_removeClientConfigurations` would have made it 0; and an empty entry set
created by an earlier read stays in `_ccConfigs`. -/
theorem C4_disconnected_leaves_storage (self : BLEConnection) (reason : JSArg) :
    (self.disconnected reason).1 = self ∧
    ((BLEConnection.new { BLE.new with _ccStorage := sampleStorage } samplePeer).disconnected
        0).1._ble._ccStorage.readClientConfiguration sampleCharacteristic samplePeer =
      Except.ok (1, sampleStorage) ∧
    (sampleStorage._removeClientConfigurations samplePeer).readClientConfiguration
        sampleCharacteristic samplePeer =
      Except.ok (0, { _ccConfigs :=
        [("00:A0:50:01:02:03/public", [("2A37", 2)]), ("C0:11:22:33:44:55/random", [])] }) ∧
    ((BLEConnection.new { BLE.new with _ccStorage :=
        { _ccConfigs := [("C0:11:22:33:44:55/random", [])] } } samplePeer).disconnected
        0).1._ble._ccStorage._ccConfigs = [("C0:11:22:33:44:55/random", [])] ∧
    (MemoryClientConfigurationStorage._removeClientConfigurations
        { _ccConfigs := [("C0:11:22:33:44:55/random", [])] } samplePeer)._ccConfigs = [] := by
  refine ⟨?_, rfl, rfl, rfl, rfl⟩
  unfold BLEConnection.disconnected
  cases self._onDisconnected <;> rfl

/-- C5 (as the code behaves): the bearer's `readClientConfiguration` performs
the storage's read but evaluates to `undefined`, never to the number the
storage returned; the bearer's `writeClientConfiguration` throws the storage's
`TypeError`, so nothing written through the bearer is read back. -/
theorem C5_bearer_read_undefined (self : ATTBearer) (characteristic : Characteristic)
    (connection : GapConnection) (value : Nat) :
    (∃ v storage1,
      self._ble._ccStorage.readClientConfiguration characteristic connection =
        Except.ok (v, storage1) ∧
      self.readClientConfiguration characteristic connection =
        Except.ok (JSValue.undefined,
          { self with _ble := { self._ble with _ccStorage := storage1 } }) ∧
      JSValue.undefined ≠ JSValue.number v) ∧
    self.writeClientConfiguration characteristic connection value =
      Except.error JSError.typeError := by
  refine ⟨⟨_, _, MemoryClientConfigurationStorage.read_eq _ _ _, ?_, by simp⟩, rfl⟩
  unfold ATTBearer.readClientConfiguration
  rw [MemoryClientConfigurationStorage.read_eq]
  rfl

/-! ### The socket filter -/

/-- The buffer `setSocketFilter` builds, whatever the allocated memory held. -/
theorem Transport.filterBuffer_eq (memory : Nat → Nat) :
    Transport.filterBuffer memory =
      Except.ok [0x14, 0x00, 0x00, 0x00, 0x20, 0xC1, 0x08, 0x00, 0x00, 0x00, 0x00, 0x40,
        0x00, 0x00] := by
  rfl

/-- C6 as stated fails: on zeroed memory the buffer built does not start with
the bytes 12 00 00 00. -/
theorem C6_type_mask_not_0x12 :
    ¬ ∃ buf, Transport.filterBuffer (fun _ => 0) = Except.ok buf ∧
      buf.take 4 = [0x12, 0x00, 0x00, 0x00] := by
  rintro ⟨buf, hbuf, htake⟩
  rw [Transport.filterBuffer_eq] at hbuf
  injection hbuf with hbuf
  subst hbuf
  revert htake
  decide

/-- C6 (amended): the packet-type mask is `(1 << 4) | (1 << 2)`, that is
0b10100 (0x14), bit 4 for event packets and bit 2 for ACL packets, and bytes
0-3 of the buffer built are its little-endian encoding 14 00 00 00; when the
method runs to its end this is the buffer handed to the socket. -/
theorem C6_type_mask_bytes (memory : Nat → Nat) (self : Transport) :
    TYPE_MASK = 0b10100 ∧
    TYPE_MASK = 2 ^ HCI_EVENT_PKT + 2 ^ HCI_ACLDATA_PKT ∧
    ∃ buf, Transport.filterBuffer memory = Except.ok buf ∧
      buf.take 4 = [0x14, 0x00, 0x00, 0x00] ∧
      Buffer.readUInt32LE buf 0 = TYPE_MASK ∧
      Transport.setSocketFilter true memory self =
        Except.ok { self with _socket := { filter := some buf } } := by
  refine ⟨by decide, by decide, _, Transport.filterBuffer_eq memory, by decide, by decide, rfl⟩

/-- C7: the buffer built is 14 bytes long; the little-endian words at offsets
4 and 8 are 0x0008C120 and 0x40000000, and in the 64-bit mask they form, low
word first, bit `c` is set exactly for `c` in {0x05, 0x08, 0x0E, 0x0F, 0x13,
0x3E}; bytes 12 and 13 are zero. -/
theorem C7_event_mask_layout (memory : Nat → Nat) :
    ∃ buf, Transport.filterBuffer memory = Except.ok buf ∧
      buf.length = 14 ∧
      Buffer.readUInt32LE buf 4 = 0x0008C120 ∧
      Buffer.readUInt32LE buf 8 = 0x40000000 ∧
      (∀ c, Nat.testBit (Buffer.readUInt32LE buf 4 + 2 ^ 32 * Buffer.readUInt32LE buf 8) c = true ↔
        c ∈ [0x05, 0x08, 0x0E, 0x0F, 0x13, 0x3E]) ∧
      buf.getD 12 0 = 0 ∧ buf.getD 13 0 = 0 := by
  refine ⟨_, Transport.filterBuffer_eq memory, by decide, by decide, by decide, ?_,
    by decide, by decide⟩
  intro c
  have hval : Buffer.readUInt32LE [0x14, 0x00, 0x00, 0x00, 0x20, 0xC1, 0x08, 0x00, 0x00, 0x00,
      0x00, 0x40, 0x00, 0x00] 4 + 2 ^ 32 * Buffer.readUInt32LE [0x14, 0x00, 0x00, 0x00, 0x20,
      0xC1, 0x08, 0x00, 0x00, 0x00, 0x00, 0x40, 0x00, 0x00] 8 = 0x400000000008C120 := by
    decide
  rw [hval]
  by_cases hc : c < 64
  · interval_cases c <;> decide
  · have hlt : 0x400000000008C120 < 2 ^ c :=
      lt_of_lt_of_le (by decide : 0x400000000008C120 < 2 ^ 64)
        (Nat.pow_le_pow_right (by decide) (by omega))
    rw [Nat.testBit_lt_two_pow hlt]
    simp only [List.mem_cons, List.mem_singleton, List.not_mem_nil, or_false]
    constructor
    · intro h; cases h
    · intro h; omega

/-! ### The connection session -/

/-- C8 as stated fails: on the sample session, after its `disconnected` event
has been delivered, `disconnect(19)` is forwarded to the link connection and
returns normally, and a later `connectionUpdated(7)` invokes the update
handler. -/
theorem C8_no_closed_state :
    ¬ ((∃ e, (sampleSession.disconnected 8).1.disconnect 19 = Except.error e) ∧
        ((sampleSession.disconnected 8).1.connectionUpdated 7).2 = []) ∧
    (sampleSession.disconnected 8).1.disconnect 19 =
      Except.ok (sampleSession, [SessionEffect.disconnect 19]) ∧
    ((sampleSession.disconnected 8).1.connectionUpdated 7).2 = [SessionEffect.onUpdated 2 7] := by
  refine ⟨?_, rfl, rfl⟩
  rintro ⟨-, h⟩
  revert h
  decide

/-- C8 (amended): the session has no Closed state. The `disconnected` event
invokes the disconnect handler when one is registered and leaves the session
as it was; afterwards each of the five operations still returns normally with
exactly one call forwarded to the link connection, and each of the six event
callbacks invokes its handler exactly when one is registered. -/
theorem C8_session_unchanged_after_disconnected (self : BLEConnection) (reason : JSArg)
    (a b : JSArg) :
    (self.disconnected reason).1 = self ∧
    ((self.disconnected reason).1.disconnect a =
        Except.ok ((self.disconnected reason).1, [SessionEffect.disconnect a]) ∧
      (self.disconnected reason).1.updateConnection a b =
        Except.ok ((self.disconnected reason).1, [SessionEffect.updateConnectionParameter a b]) ∧
      (self.disconnected reason).1.startAuthentication =
        Except.ok ((self.disconnected reason).1, [SessionEffect.startAuthentication]) ∧
      (self.disconnected reason).1.setSecurityParameter a =
        Except.ok ((self.disconnected reason).1, [SessionEffect.setSecurityParameter a]) ∧
      (self.disconnected reason).1.passkeyEntry a =
        Except.ok ((self.disconnected reason).1, [SessionEffect.passkeyEntry a])) ∧
    (∀ cb, self._onPasskeyRequested = some cb →
        ((self.disconnected reason).1.passkeyRequested a).2 =
          [SessionEffect.onPasskeyRequested cb a]) ∧
    (∀ cb, self._onAuthenticationCompleted = some cb →
        ((self.disconnected reason).1.encryptionCompleted a).2 =
          [SessionEffect.onAuthenticationCompleted cb a]) ∧
    (∀ cb, self._onAuthenticationFailed = some cb →
        ((self.disconnected reason).1.pairingFailed a).2 =
          [SessionEffect.onAuthenticationFailed cb a true] ∧
        ((self.disconnected reason).1.encryptionFailed a).2 =
          [SessionEffect.onAuthenticationFailed cb a false]) ∧
    (∀ cb, self._onDisconnected = some cb →
        (self.disconnected reason).2 = [SessionEffect.onDisconnected cb reason] ∧
        ((self.disconnected reason).1.disconnected a).2 =
          [SessionEffect.onDisconnected cb a]) ∧
    (∀ cb, self._onUpdated = some cb →
        ((self.disconnected reason).1.connectionUpdated a).2 = [SessionEffect.onUpdated cb a]) ∧
    (self._onPasskeyRequested = none →
        ((self.disconnected reason).1.passkeyRequested a).2 = []) ∧
    (self._onAuthenticationCompleted = none →
        ((self.disconnected reason).1.encryptionCompleted a).2 = []) ∧
    (self._onAuthenticationFailed = none →
        ((self.disconnected reason).1.pairingFailed a).2 = [] ∧
        ((self.disconnected reason).1.encryptionFailed a).2 = []) ∧
    (self._onDisconnected = none →
        (self.disconnected reason).2 = [] ∧
        ((self.disconnected reason).1.disconnected a).2 = []) ∧
    (self._onUpdated = none →
        ((self.disconnected reason).1.connectionUpdated a).2 = []) := by
  have hself : (self.disconnected reason).1 = self := by
    unfold BLEConnection.disconnected
    cases self._onDisconnected <;> rfl
  rw [hself]
  refine ⟨rfl, ⟨rfl, rfl, rfl, rfl, rfl⟩, ?_, ?_, ?_, ?_, ?_, ?_, ?_, ?_, ?_, ?_⟩
  · intro cb h; simp [BLEConnection.passkeyRequested, h]
  · intro cb h; simp [BLEConnection.encryptionCompleted, h]
  · intro cb h; simp [BLEConnection.pairingFailed, BLEConnection.encryptionFailed, h]
  · intro cb h; simp [BLEConnection.disconnected, h]
  · intro cb h; simp [BLEConnection.connectionUpdated, h]
  · intro h; simp [BLEConnection.passkeyRequested, h]
  · intro h; simp [BLEConnection.encryptionCompleted, h]
  · intro h; simp [BLEConnection.pairingFailed, BLEConnection.encryptionFailed, h]
  · intro h; simp [BLEConnection.disconnected, h]
  · intro h; simp [BLEConnection.connectionUpdated, h]

/-- C8 (amended) on the sample session: after `disconnected(8)` a later
`connectionUpdated(7)` reaches handler 2, a second `disconnected(9)` reaches
handler 1, and `passkeyRequested(5)`, without a handler, calls nothing. -/
theorem C8_session_unchanged_after_disconnected_witness :
    ((sampleSession.disconnected 8).1.connectionUpdated 7).2 = [SessionEffect.onUpdated 2 7] ∧
    ((sampleSession.disconnected 8).2 = [SessionEffect.onDisconnected 1 8] ∧
      ((sampleSession.disconnected 8).1.disconnected 7).2 =
        [SessionEffect.onDisconnected 1 7]) ∧
    ((sampleSession.disconnected 8).1.passkeyRequested 7).2 = [] :=
  ⟨(C8_session_unchanged_after_disconnected sampleSession 8 7 0).2.2.2.2.2.2.1 2 rfl,
   (C8_session_unchanged_after_disconnected sampleSession 8 7 0).2.2.2.2.2.1 1 rfl,
   (C8_session_unchanged_after_disconnected sampleSession 8 7 0).2.2.2.2.2.2.2.1 rfl⟩

/-! ### Discovery -/

/-- C9 as stated fails: for the directed sample record, which carries a
scan-response payload, the handler does not receive the record with both
payloads as received; its scan response has been parsed. -/
theorem C9_directed_scan_response_parsed :
    BLE.gapDiscovered sampleParse { BLE.new with _onDiscovered := some 3 } sampleDirectedDevice ≠
      [FacadeEffect.onDiscovered 3 sampleDirectedDevice] ∧
    BLE.gapDiscovered sampleParse { BLE.new with _onDiscovered := some 3 } sampleDirectedDevice =
      [FacadeEffect.onDiscovered 3
        { advertising := AdvData.wire [2, 1, 6]
          scanResponse := some (AdvData.structured [(0xFF, [3, 9, 65, 66])])
          directed := true }] := by
  constructor
  · decide
  · rfl

/-- C9 (amended): with a discovered-handler registered, the handler is called
exactly once per record, with the record changed as follows: when the record
has a scan-response payload, `scanResponse` is replaced by its parsed form and
`advertising` is left as received, whether or not the record is directed;
otherwise, when the record is not directed, `advertising` is replaced by its
parsed form; otherwise (directed, no scan response) the record is passed as
received. -/
theorem C9_discovered_record (parse : AdvData → AdvData) (self : BLE) (device : Device)
    (cb : Callback) (hcb : self._onDiscovered = some cb) :
    (∀ sr, device.scanResponse = some sr →
      self.gapDiscovered parse device =
        [FacadeEffect.onDiscovered cb
          { advertising := device.advertising
            scanResponse := some (parse sr)
            directed := device.directed }]) ∧
    (device.scanResponse = none → device.directed = false →
      self.gapDiscovered parse device =
        [FacadeEffect.onDiscovered cb
          { advertising := parse device.advertising
            scanResponse := none
            directed := false }]) ∧
    (device.scanResponse = none → device.directed = true →
      self.gapDiscovered parse device = [FacadeEffect.onDiscovered cb device]) := by
  obtain ⟨adv, sr0, dir⟩ := device
  refine ⟨fun sr h => ?_, fun h hd => ?_, fun h hd => ?_⟩
  · simp only at h
    subst h
    simp [BLE.gapDiscovered, hcb]
  · simp only at h hd
    subst h hd
    simp [BLE.gapDiscovered, hcb]
  · simp only at h hd
    subst h hd
    simp [BLE.gapDiscovered, hcb]

/-- C9 (amended) at concrete records: a record with a scan response, an
undirected record without one, and a directed record without one. -/
theorem C9_discovered_record_witness :
    BLE.gapDiscovered sampleParse { BLE.new with _onDiscovered := some 3 } sampleDirectedDevice =
      [FacadeEffect.onDiscovered 3
        { advertising := AdvData.wire [2, 1, 6]
          scanResponse := some (sampleParse (AdvData.wire [3, 9, 65, 66]))
          directed := true }] ∧
    BLE.gapDiscovered sampleParse { BLE.new with _onDiscovered := some 3 }
        { advertising := AdvData.wire [2, 1, 6], scanResponse := none, directed := false } =
      [FacadeEffect.onDiscovered 3
        { advertising := sampleParse (AdvData.wire [2, 1, 6])
          scanResponse := none
          directed := false }] ∧
    BLE.gapDiscovered sampleParse { BLE.new with _onDiscovered := some 3 }
        { advertising := AdvData.wire [2, 1, 6], scanResponse := none, directed := true } =
      [FacadeEffect.onDiscovered 3
        { advertising := AdvData.wire [2, 1, 6], scanResponse := none, directed := true }] :=
  ⟨(C9_discovered_record sampleParse { BLE.new with _onDiscovered := some 3 }
      sampleDirectedDevice 3 rfl).1 (AdvData.wire [3, 9, 65, 66]) rfl,
   (C9_discovered_record sampleParse { BLE.new with _onDiscovered := some 3 }
      { advertising := AdvData.wire [2, 1, 6], scanResponse := none, directed := false }
      3 rfl).2.1 rfl rfl,
   (C9_discovered_record sampleParse { BLE.new with _onDiscovered := some 3 }
      { advertising := AdvData.wire [2, 1, 6], scanResponse := none, directed := true }
      3 rfl).2.2 rfl rfl⟩

/-! ### Readiness -/

/-- Where an element of `l ++ [x]` sits: it is the appended `x`, or it is an
element of `l`. -/
theorem split_append_singleton {α : Type} (l pre post : List α) (x e : α)
    (h : l ++ [x] = pre ++ e :: post) :
    (post = [] ∧ pre = l ∧ e = x) ∨ ∃ post1, post = post1 ++ [x] ∧ l = pre ++ e :: post1 := by
  rcases List.eq_nil_or_concat post with hp | ⟨post1, b, hp⟩
  · subst hp
    have h1 := List.append_inj' h rfl
    refine Or.inl ⟨rfl, h1.1.symm, ?_⟩
    have h2 := h1.2
    injection h2 with h3
    exact h3.symm
  · subst hp
    have h0 : l ++ [x] = (pre ++ e :: post1) ++ [b] := by simpa using h
    have h1 := List.append_inj' h0 rfl
    have h2 := h1.2
    injection h2 with h3
    subst h3
    exact Or.inr ⟨post1, by simp, h1.1⟩

/-- An ordering property of a record of events survives the appending of one
event, provided the appended event has its predecessor on record. -/
theorem precedes_append_singleton {α : Type} (P Q : α → Prop) (l : List α) (x : α)
    (h : ∀ pre e post, l = pre ++ e :: post → Q e → ∃ e' ∈ pre, P e')
    (hx : Q x → ∃ e' ∈ l, P e') :
    ∀ pre e post, l ++ [x] = pre ++ e :: post → Q e → ∃ e' ∈ pre, P e' := by
  intro pre e post hsplit hq
  rcases split_append_singleton l pre post x e hsplit with ⟨-, hpre, he⟩ | ⟨post1, -, hl⟩
  · subst hpre he
    exact hx hq
  · exact h pre e post1 hl hq

namespace FacadeState

/-- The invariant holds initially. -/
theorem Inv.init : Inv FacadeState.init := by
  refine ⟨by simp [FacadeState.init, BLE.new], ?_, ?_, ?_, by simp [FacadeState.init],
    by simp [FacadeState.init]⟩ <;>
  · intro pre e post h
    simp [FacadeState.init] at h

/-- The invariant survives the recording of one event together with any change
of the facade and of the waiting reactions that agrees with the record. -/
theorem Inv.record {s : FacadeState} (h : Inv s) (x : FacadeEvent) (b : BLE) (rp sp : Nat)
    (hready : b._ready = true ↔ FacadeEvent.readySet ∈ s.trace ++ [x])
    (hcause : x = FacadeEvent.readySet →
      ∃ e' ∈ s.trace,
        e' = FacadeEvent.gapReadyValid ∨ e' = FacadeEvent.staticAddressCompleted true)
    (hflag : (∃ cb, x = FacadeEvent.onReadyCalled cb) →
      ∃ e' ∈ s.trace, e' = FacadeEvent.readySet)
    (hreq : (∃ f, x = FacadeEvent.staticAddressCompleted f) →
      ∃ e' ∈ s.trace, e' = FacadeEvent.staticAddressRequested)
    (hsp : 0 < sp → FacadeEvent.staticAddressRequested ∈ s.trace ++ [x])
    (hrp : 0 < rp → FacadeEvent.gapReadyValid ∈ s.trace ++ [x]) :
    Inv { ble := b, resolvedPending := rp, staticPending := sp, trace := s.trace ++ [x] } :=
  { ready_iff := hready
    cause := precedes_append_singleton _ _ s.trace x h.cause hcause
    flag_first := precedes_append_singleton _ _ s.trace x h.flag_first hflag
    requested := precedes_append_singleton _ _ s.trace x h.requested hreq
    static_pending := hsp
    resolved_pending := hrp }

/-- The invariant does not depend on the parts of a state it does not
mention. -/
theorem Inv.congr {s t : FacadeState} (h : Inv s) (hready : t.ble._ready = s.ble._ready)
    (htrace : t.trace = s.trace) (hsp : 0 < t.staticPending → 0 < s.staticPending)
    (hrp : 0 < t.resolvedPending → 0 < s.resolvedPending) : Inv t :=
  { ready_iff := by rw [hready, htrace]; exact h.ready_iff
    cause := by rw [htrace]; exact h.cause
    flag_first := by rw [htrace]; exact h.flag_first
    requested := by rw [htrace]; exact h.requested
    static_pending := fun hp => by rw [htrace]; exact h.static_pending (hsp hp)
    resolved_pending := fun hp => by rw [htrace]; exact h.resolved_pending (hrp hp) }

/-- Running the registered function keeps the invariant when its cause is on
record. -/
theorem Inv.runThen {s : FacadeState} (h : Inv s)
    (hc : FacadeEvent.gapReadyValid ∈ s.trace ∨
      FacadeEvent.staticAddressCompleted true ∈ s.trace) : Inv (runThen s) := by
  have h1 : Inv
      { ble := { s.ble with _ready := true }
        resolvedPending := s.resolvedPending
        staticPending := s.staticPending
        trace := s.trace ++ [FacadeEvent.readySet] } := by
    refine Inv.record h _ _ _ _ (by simp) ?_ (by simp) (by simp) ?_ ?_
    · intro _
      rcases hc with hc | hc
      · exact ⟨_, hc, Or.inl rfl⟩
      · exact ⟨_, hc, Or.inr rfl⟩
    · intro hp; exact List.mem_append_left _ (h.static_pending hp)
    · intro hp; exact List.mem_append_left _ (h.resolved_pending hp)
  cases hcb : s.ble._onReady with
  | none =>
    have hrun : FacadeState.runThen s =
        { ble := { s.ble with _ready := true }
          resolvedPending := s.resolvedPending
          staticPending := s.staticPending
          trace := s.trace ++ [FacadeEvent.readySet] } := by
      simp [FacadeState.runThen, BLE.gapReadyThen, hcb]
    rw [hrun]
    exact h1
  | some cb =>
    have hrun : FacadeState.runThen s =
        { ble := { s.ble with _ready := true }
          resolvedPending := s.resolvedPending
          staticPending := s.staticPending
          trace := s.trace ++ [FacadeEvent.readySet] ++ [FacadeEvent.onReadyCalled cb] } := by
      simp [FacadeState.runThen, BLE.gapReadyThen, hcb]
    rw [hrun]
    refine Inv.record h1 _ _ _ _ (by simp) (by simp) ?_ (by simp) ?_ ?_
    · intro _; exact ⟨_, by simp, rfl⟩
    · intro hp; exact List.mem_append_left _ (h1.static_pending hp)
    · intro hp; exact List.mem_append_left _ (h1.resolved_pending hp)

/-- Every step keeps the invariant. -/
theorem Inv.step {s : FacadeState} (h : Inv s) (i : FacadeInput) : Inv (step s i) := by
  cases i with
  | setOnReady cb =>
    exact Inv.congr h rfl rfl (fun hp => hp) (fun hp => hp)
  | gapReady valid =>
    cases valid with
    | false =>
      refine Inv.record h _ _ _ _ ?_ (by simp) (by simp) (by simp) (by simp) ?_
      · simpa using h.ready_iff
      · intro hp; exact List.mem_append_left _ (h.resolved_pending hp)
    | true =>
      refine Inv.record h _ _ _ _ ?_ (by simp) (by simp) (by simp) ?_ (by simp)
      · simpa using h.ready_iff
      · intro hp; exact List.mem_append_left _ (h.static_pending hp)
  | microtask =>
    cases hn : s.resolvedPending with
    | zero =>
      have hs : FacadeState.step s FacadeInput.microtask = s := by
        simp [FacadeState.step, hn]
      rw [hs]; exact h
    | succ n =>
      have hs : FacadeState.step s FacadeInput.microtask =
          FacadeState.runThen { s with resolvedPending := n } := by
        simp [FacadeState.step, hn]
      rw [hs]
      have hv : FacadeEvent.gapReadyValid ∈ s.trace := h.resolved_pending (by omega)
      exact Inv.runThen (Inv.congr h rfl rfl (fun hp => hp) (fun _ => by omega)) (Or.inl hv)
  | staticAddressSettled fulfilled =>
    cases hn : s.staticPending with
    | zero =>
      have hs : FacadeState.step s (FacadeInput.staticAddressSettled fulfilled) = s := by
        simp [FacadeState.step, hn]
      rw [hs]; exact h
    | succ n =>
      have hr : FacadeEvent.staticAddressRequested ∈ s.trace := h.static_pending (by omega)
      have h1 : Inv
          { ble := s.ble
            resolvedPending := s.resolvedPending
            staticPending := n
            trace := s.trace ++ [FacadeEvent.staticAddressCompleted fulfilled] } := by
        refine Inv.record h _ _ _ _ ?_ (by simp) (by simp) ?_ ?_ ?_
        · simpa using h.ready_iff
        · intro _; exact ⟨_, hr, rfl⟩
        · intro _; exact List.mem_append_left _ hr
        · intro hp; exact List.mem_append_left _ (h.resolved_pending hp)
      cases fulfilled with
      | false =>
        have hs : FacadeState.step s (FacadeInput.staticAddressSettled false) =
            { ble := s.ble
              resolvedPending := s.resolvedPending
              staticPending := n
              trace := s.trace ++ [FacadeEvent.staticAddressCompleted false] } := by
          simp [FacadeState.step, hn]
        rw [hs]; exact h1
      | true =>
        have hs : FacadeState.step s (FacadeInput.staticAddressSettled true) =
            FacadeState.runThen
              { ble := s.ble
                resolvedPending := s.resolvedPending
                staticPending := n
                trace := s.trace ++ [FacadeEvent.staticAddressCompleted true] } := by
          simp [FacadeState.step, hn]
        rw [hs]
        exact Inv.runThen h1 (Or.inr (by simp))

/-- Every run from a state with the invariant ends in one. -/
theorem Inv.run {s : FacadeState} (h : Inv s) (inputs : List FacadeInput) :
    Inv (run s inputs) := by
  induction inputs generalizing s with
  | nil => exact h
  | cons i rest ih => exact ih (Inv.step h i)

/-- A valid-address report or a fulfilled assignment on record after a step was
on record before it or is the step itself. -/
theorem step_origin (s : FacadeState) (i : FacadeInput) :
    (FacadeEvent.gapReadyValid ∈ (step s i).trace →
      FacadeEvent.gapReadyValid ∈ s.trace ∨ i = FacadeInput.gapReady true) ∧
    (FacadeEvent.staticAddressCompleted true ∈ (step s i).trace →
      FacadeEvent.staticAddressCompleted true ∈ s.trace ∨
        i = FacadeInput.staticAddressSettled true) := by
  cases i with
  | setOnReady cb => exact ⟨fun h => Or.inl h, fun h => Or.inl h⟩
  | gapReady valid =>
    cases valid <;> simp [FacadeState.step, BLE.gapReady]
  | microtask =>
    cases hn : s.resolvedPending with
    | zero => simp [FacadeState.step, hn]
    | succ n =>
      cases hcb : s.ble._onReady <;>
        simp [FacadeState.step, hn, FacadeState.runThen, BLE.gapReadyThen, hcb]
  | staticAddressSettled fulfilled =>
    cases hn : s.staticPending with
    | zero =>
      simp only [FacadeState.step, hn]
      exact ⟨fun h => Or.inl h, fun h => Or.inl h⟩
    | succ n =>
      cases fulfilled <;> cases hcb : s.ble._onReady <;>
        simp [FacadeState.step, hn, FacadeState.runThen, BLE.gapReadyThen, hcb]

/-- A valid-address report or a fulfilled assignment on record after a run was
on record before it or is among the steps of the run. -/
theorem run_origin (s : FacadeState) (inputs : List FacadeInput) :
    (FacadeEvent.gapReadyValid ∈ (run s inputs).trace →
      FacadeEvent.gapReadyValid ∈ s.trace ∨ FacadeInput.gapReady true ∈ inputs) ∧
    (FacadeEvent.staticAddressCompleted true ∈ (run s inputs).trace →
      FacadeEvent.staticAddressCompleted true ∈ s.trace ∨
        FacadeInput.staticAddressSettled true ∈ inputs) := by
  induction inputs generalizing s with
  | nil => exact ⟨fun h => Or.inl h, fun h => Or.inl h⟩
  | cons i rest ih =>
    have h1 := ih (step s i)
    have h2 := step_origin s i
    constructor
    · intro h
      rcases h1.1 h with h | h
      · rcases h2.1 h with h | h
        · exact Or.inl h
        · exact Or.inr (by simp [h])
      · exact Or.inr (List.mem_cons_of_mem _ h)
    · intro h
      rcases h1.2 h with h | h
      · rcases h2.2 h with h | h
        · exact Or.inl h
        · exact Or.inr (by simp [h])
      · exact Or.inr (List.mem_cons_of_mem _ h)

end FacadeState

/-- C10: in every state reached from a new facade by setter calls, `gapReady`
calls, microtasks and settlements of static-address promises, `isReady()` is
true only if a `gapReady` call saw a valid public address or a static-address
assignment was fulfilled, and the same holds of every call of the ready
handler; in the record of events the setting of the flag and the handler call
come after that report or fulfilment, the handler call comes after the setting
of the flag, and a completion after its request; so without a valid-address
`gapReady` and without a fulfilled assignment among the steps (in particular
when every assignment is rejected) the flag stays false and the handler is
never called. -/
theorem C10_ready_only_after_address (inputs : List FacadeInput) :
    ((FacadeState.run FacadeState.init inputs).ble.isReady = true →
      FacadeInput.gapReady true ∈ inputs ∨ FacadeInput.staticAddressSettled true ∈ inputs) ∧
    (∀ cb, FacadeEvent.onReadyCalled cb ∈ (FacadeState.run FacadeState.init inputs).trace →
      (FacadeState.run FacadeState.init inputs).ble.isReady = true) ∧
    (∀ pre e post, (FacadeState.run FacadeState.init inputs).trace = pre ++ e :: post →
      (e = FacadeEvent.readySet ∨ ∃ cb, e = FacadeEvent.onReadyCalled cb) →
      FacadeEvent.gapReadyValid ∈ pre ∨ FacadeEvent.staticAddressCompleted true ∈ pre) ∧
    (∀ pre cb post, (FacadeState.run FacadeState.init inputs).trace =
        pre ++ FacadeEvent.onReadyCalled cb :: post → FacadeEvent.readySet ∈ pre) ∧
    (∀ pre f post, (FacadeState.run FacadeState.init inputs).trace =
        pre ++ FacadeEvent.staticAddressCompleted f :: post →
      FacadeEvent.staticAddressRequested ∈ pre) ∧
    ((∀ i ∈ inputs, i ≠ FacadeInput.gapReady true ∧ i ≠ FacadeInput.staticAddressSettled true) →
      (FacadeState.run FacadeState.init inputs).ble.isReady = false ∧
      ∀ cb, FacadeEvent.onReadyCalled cb ∉ (FacadeState.run FacadeState.init inputs).trace) := by
  have hinv := FacadeState.Inv.run FacadeState.Inv.init inputs
  have horig := FacadeState.run_origin FacadeState.init inputs
  have hcause : ∀ pre post, (FacadeState.run FacadeState.init inputs).trace =
      pre ++ FacadeEvent.readySet :: post →
      FacadeEvent.gapReadyValid ∈ pre ∨ FacadeEvent.staticAddressCompleted true ∈ pre := by
    intro pre post hsplit
    obtain ⟨e', hmem, he'⟩ := hinv.cause pre _ post hsplit rfl
    rcases he' with he' | he'
    · exact Or.inl (he' ▸ hmem)
    · exact Or.inr (he' ▸ hmem)
  have hflag : ∀ pre cb post, (FacadeState.run FacadeState.init inputs).trace =
      pre ++ FacadeEvent.onReadyCalled cb :: post → FacadeEvent.readySet ∈ pre := by
    intro pre cb post hsplit
    obtain ⟨e', hmem, he'⟩ := hinv.flag_first pre _ post hsplit ⟨cb, rfl⟩
    exact he' ▸ hmem
  have hready : (FacadeState.run FacadeState.init inputs).ble.isReady = true →
      FacadeInput.gapReady true ∈ inputs ∨ FacadeInput.staticAddressSettled true ∈ inputs := by
    intro hr
    obtain ⟨pre, post, hsplit⟩ := List.append_of_mem (hinv.ready_iff.mp hr)
    rcases hcause pre post hsplit with hm | hm
    · have hm1 : FacadeEvent.gapReadyValid ∈ (FacadeState.run FacadeState.init inputs).trace := by
        rw [hsplit]; exact List.mem_append_left _ hm
      rcases horig.1 hm1 with h0 | h0
      · simp [FacadeState.init] at h0
      · exact Or.inl h0
    · have hm1 : FacadeEvent.staticAddressCompleted true ∈
          (FacadeState.run FacadeState.init inputs).trace := by
        rw [hsplit]; exact List.mem_append_left _ hm
      rcases horig.2 hm1 with h0 | h0
      · simp [FacadeState.init] at h0
      · exact Or.inr h0
  have hcalled : ∀ cb,
      FacadeEvent.onReadyCalled cb ∈ (FacadeState.run FacadeState.init inputs).trace →
      (FacadeState.run FacadeState.init inputs).ble.isReady = true := by
    intro cb hmem
    obtain ⟨pre, post, hsplit⟩ := List.append_of_mem hmem
    have hset := hflag pre cb post hsplit
    apply hinv.ready_iff.mpr
    rw [hsplit]
    exact List.mem_append_left _ hset
  refine ⟨hready, hcalled, ?_, hflag, ?_, ?_⟩
  · intro pre e post hsplit he
    rcases he with he | ⟨cb, he⟩
    · subst he
      exact hcause pre post hsplit
    · subst he
      have hset := hflag pre cb post hsplit
      obtain ⟨pre1, post1, hpre⟩ := List.append_of_mem hset
      have hsplit1 : (FacadeState.run FacadeState.init inputs).trace =
          pre1 ++ FacadeEvent.readySet :: (post1 ++ FacadeEvent.onReadyCalled cb :: post) := by
        rw [hsplit, hpre]; simp
      rcases hcause pre1 _ hsplit1 with hm | hm
      · exact Or.inl (by rw [hpre]; exact List.mem_append_left _ hm)
      · exact Or.inr (by rw [hpre]; exact List.mem_append_left _ hm)
  · intro pre f post hsplit
    obtain ⟨e', hmem, he'⟩ := hinv.requested pre _ post hsplit ⟨f, rfl⟩
    exact he' ▸ hmem
  · intro hnone
    have hnot : ¬ (FacadeState.run FacadeState.init inputs).ble.isReady = true := by
      intro hr
      rcases hready hr with h0 | h0
      · exact (hnone _ h0).1 rfl
      · exact (hnone _ h0).2 rfl
    refine ⟨by simpa using hnot, fun cb hmem => hnot (hcalled cb hmem)⟩

/-- C10 on two runs. With a handler registered and an invalid public address,
the flag is false and the handler uncalled while the assignment is pending,
and after its fulfilment the flag is true with the flag set before the handler
call; after a rejection the flag stays false. -/
theorem C10_ready_only_after_address_witness :
    (FacadeState.run FacadeState.init
      [FacadeInput.setOnReady (some 1), FacadeInput.gapReady false]).ble.isReady = false ∧
    (FacadeState.run FacadeState.init
      [FacadeInput.setOnReady (some 1), FacadeInput.gapReady false,
        FacadeInput.staticAddressSettled true]).ble.isReady = true ∧
    (FacadeState.run FacadeState.init
      [FacadeInput.setOnReady (some 1), FacadeInput.gapReady false,
        FacadeInput.staticAddressSettled true]).trace =
      [FacadeEvent.staticAddressRequested, FacadeEvent.staticAddressCompleted true,
        FacadeEvent.readySet, FacadeEvent.onReadyCalled 1] ∧
    FacadeEvent.readySet ∈
      [FacadeEvent.staticAddressRequested, FacadeEvent.staticAddressCompleted true,
        FacadeEvent.readySet] ∧
    ((FacadeState.run FacadeState.init
        [FacadeInput.setOnReady (some 1), FacadeInput.gapReady false,
          FacadeInput.staticAddressSettled false]).ble.isReady = false ∧
      ∀ cb, FacadeEvent.onReadyCalled cb ∉ (FacadeState.run FacadeState.init
        [FacadeInput.setOnReady (some 1), FacadeInput.gapReady false,
          FacadeInput.staticAddressSettled false]).trace) :=
  ⟨((C10_ready_only_after_address
      [FacadeInput.setOnReady (some 1), FacadeInput.gapReady false]).2.2.2.2.2 (by decide)).1,
   rfl, rfl,
   (C10_ready_only_after_address
      [FacadeInput.setOnReady (some 1), FacadeInput.gapReady false,
        FacadeInput.staticAddressSettled true]).2.2.2.1
      [FacadeEvent.staticAddressRequested, FacadeEvent.staticAddressCompleted true,
        FacadeEvent.readySet] 1 [] rfl,
   (C10_ready_only_after_address
      [FacadeInput.setOnReady (some 1), FacadeInput.gapReady false,
        FacadeInput.staticAddressSettled false]).2.2.2.2.2 (by decide)⟩

end Connectable
